import Mathlib

/-!
Verification development for vpcctl.py, a Linux VPC simulator CLI.

The source shells out to `ip` / `brctl` / `iptables`. We embed it shallowly:

* `Cmd` has one constructor per distinct host command the source issues via
  `run(...)`; `applyCmd` gives each command its (success) effect on an
  abstract `HostState` (bridges, namespaces, links, addresses, routes, NAT
  rules, filter rules) — this models the external Command Executor.
* Each Python function becomes a Lean function threading an `OpOut`
  (resulting state, the ordered trace of issued commands with their
  `check` flag, and the operator-facing log lines).  Log text is modelled
  without the decorative quote characters of the Python prints.
* The existence probes `exists_ns` / `exists_bridge` (grep over `ip netns
  list` / `brctl show` output) are modelled as exact membership queries,
  which is what the grep computes for ordinary names.
* `apply_policy` reads a JSON document; we take the parsed document as
  input.  An absent `"subnet"` key raises an uncaught KeyError in Python,
  terminating the process with a non-zero exit code before any rule is
  installed; this is modelled by `Except.error`.
-/

/-- Claim a bridge as seen by the host: its name and whether it is up. -/
structure Bridge where
  name : String
  up : Bool
deriving DecidableEq

/-- Claim a non-bridge network interface (veth endpoint): its name, the name
of its veth peer, its master bridge if attached, whether it is up, and the
network namespace it has been moved into (none = root namespace). -/
structure Link where
  name : String
  peer : Option String
  master : Option String
  up : Bool
  netns : Option String
deriving DecidableEq

/-- Claim the abstract host networking state mutated by the tool. -/
structure HostState where
  bridges : List Bridge
  namespaces : List String
  links : List Link
  addrs : List (String × String × String)
  routes : List (String × String)
  natRules : List (String × String)
  filterRules : List (String × String × Int × String)
deriving DecidableEq

def initState : HostState := ⟨[], [], [], [], [], [], []⟩

/-- Claim one constructor per host command issued by the source via run(). -/
inductive Cmd where
  | linkAddBridge (name : String)
  | linkSetUp (name : String)
  | linkSetDown (name : String)
  | linkDel (name : String)
  | netnsAdd (name : String)
  | netnsDelete (name : String)
  | linkAddVeth (name peerName : String)
  | linkSetMaster (name masterName : String)
  | linkSetNetns (name ns : String)
  | nsLinkSetUp (ns name : String)
  | nsAddrAdd (ns addr dev : String)
  | nsRouteDefault (ns gw : String)
  | nsNatMasquerade (ns iface : String)
  | nsFilterAppend (ns proto : String) (port : Int) (target : String)
deriving DecidableEq

/-- Claim the effect of one successfully executed host command.  `ip link
del` of a veth endpoint also removes its peer; commands executed inside a
namespace only touch interfaces living in that namespace. -/
def applyCmd (st : HostState) (c : Cmd) : HostState :=
  match c with
  | .linkAddBridge n =>
      { st with bridges := st.bridges ++ [{ name := n, up := false }] }
  | .linkSetUp n =>
      { st with
        bridges := st.bridges.map (fun b => if b.name == n then { b with up := true } else b),
        links := st.links.map (fun l =>
          if l.name == n && l.netns == none then { l with up := true } else l) }
  | .linkSetDown n =>
      { st with
        bridges := st.bridges.map (fun b => if b.name == n then { b with up := false } else b),
        links := st.links.map (fun l =>
          if l.name == n && l.netns == none then { l with up := false } else l) }
  | .linkDel n =>
      { st with
        bridges := st.bridges.filter (fun b => !(b.name == n)),
        links := st.links.filter (fun l => !(l.name == n || l.peer == some n)) }
  | .netnsAdd n => { st with namespaces := st.namespaces ++ [n] }
  | .netnsDelete n =>
      { st with
        namespaces := st.namespaces.filter (fun m => !(m == n)),
        links := st.links.filter (fun l => !(l.netns == some n)) }
  | .linkAddVeth a b =>
      { st with links := st.links ++
          [{ name := a, peer := some b, master := none, up := false, netns := none },
           { name := b, peer := some a, master := none, up := false, netns := none }] }
  | .linkSetMaster n m =>
      { st with links := st.links.map (fun l =>
          if l.name == n && l.netns == none then { l with master := some m } else l) }
  | .linkSetNetns n ns =>
      { st with links := st.links.map (fun l =>
          if l.name == n && l.netns == none then { l with netns := some ns } else l) }
  | .nsLinkSetUp ns n =>
      { st with links := st.links.map (fun l =>
          if l.name == n && l.netns == some ns then { l with up := true } else l) }
  | .nsAddrAdd ns addr dev => { st with addrs := st.addrs ++ [(ns, addr, dev)] }
  | .nsRouteDefault ns gw => { st with routes := st.routes ++ [(ns, gw)] }
  | .nsNatMasquerade ns iface => { st with natRules := st.natRules ++ [(ns, iface)] }
  | .nsFilterAppend ns proto port target =>
      { st with filterRules := st.filterRules ++ [(ns, proto, port, target)] }

/-- Claim the running output of one operation: resulting host state, the
ordered trace of issued commands paired with their `check` flag, and the
printed log lines. -/
structure OpOut where
  state : HostState
  trace : List (Cmd × Bool)
  logs : List String
deriving DecidableEq

def OpOut.init (st : HostState) : OpOut := ⟨st, [], []⟩

def OpOut.log (o : OpOut) (msg : String) : OpOut := { o with logs := o.logs ++ [msg] }

/-- Claim run(cmd) with check=True (the default). -/
def OpOut.run (o : OpOut) (c : Cmd) : OpOut :=
  { o with state := applyCmd o.state c, trace := o.trace ++ [(c, true)] }

/-- Claim run(cmd, check=False) — failure tolerated. -/
def OpOut.runNoCheck (o : OpOut) (c : Cmd) : OpOut :=
  { o with state := applyCmd o.state c, trace := o.trace ++ [(c, false)] }

/-- Claim exists_ns from the source: does the namespace exist. -/
def exists_ns (st : HostState) (ns : String) : Bool := st.namespaces.contains ns

/-- Claim exists_bridge from the source: does the bridge exist. -/
def exists_bridge (st : HostState) (bridge : String) : Bool :=
  st.bridges.any (fun b => b.name == bridge)

/-- Claim cleanup_veth from the source: `ip link del {veth_name}` with
check=False. -/
def cleanup_veth (o : OpOut) (veth_name : String) : OpOut :=
  o.runNoCheck (Cmd.linkDel veth_name)

/-- Claim the Python str.split with a single-character separator, written
structurally on the character list so that it evaluates.  split always
returns a non-empty list, so indexing its first element never fails. -/
def splitOnChar (sep : Char) : List Char → List (List Char)
  | [] => [[]]
  | c :: cs =>
      let r := splitOnChar sep cs
      if c == sep then [] :: r
      else
        match r with
        | [] => [[c]]
        | h :: t => (c :: h) :: t

/-- Claim source line 138: `base_ip = cidr.split("/")[0]`. -/
def base_ip_of (cidr : String) : String :=
  String.mk ((splitOnChar '/' cidr.data).headD [])

/-- Claim the Python slice s[:-1]: drop the final character. -/
def strDropLast (s : String) : String := String.mk s.data.dropLast

/-- Claim source line 142: `gateway = f"{base_ip[:-1]}1"`. -/
def gatewayFromBase (base_ip : String) : String := strDropLast base_ip ++ "1"

/-- Claim source line 117: the namespace name for a subnet. -/
def ns_name (vpc_name subnet_name : String) : String := vpc_name ++ "-" ++ subnet_name

/-- Claim source line 118: the host-side veth endpoint name. -/
def veth_host_name (vpc_name subnet_name : String) : String :=
  "veth-" ++ ns_name vpc_name subnet_name

/-- Claim source line 119: the namespace-side veth endpoint name. -/
def veth_ns_name (vpc_name subnet_name : String) : String :=
  "veth-" ++ ns_name vpc_name subnet_name ++ "-ns"

/-- Claim source line 167: peering endpoint A name. -/
def peer0_name (vpc1 vpc2 : String) : String :=
  "peer-" ++ vpc1 ++ "-" ++ vpc2 ++ "-0"

/-- Claim source line 168: peering endpoint B name. -/
def peer1_name (vpc1 vpc2 : String) : String :=
  "peer-" ++ vpc1 ++ "-" ++ vpc2 ++ "-1"

/-- Claim create_vpc from the source (lines 67-82). -/
def create_vpc (st : HostState) (vpc_name cidr_block : String) : OpOut :=
  let bridge := vpc_name ++ "-br"
  let o := (OpOut.init st).log
    ("[INFO] Creating VPC " ++ vpc_name ++ " with bridge " ++ bridge ++ " and CIDR " ++ cidr_block)
  if !(exists_bridge st bridge) then
    let o := o.run (Cmd.linkAddBridge bridge)
    let o := o.run (Cmd.linkSetUp bridge)
    o.log ("[SUCCESS] VPC " ++ vpc_name ++ " created.")
  else
    o.log ("[INFO] Bridge " ++ bridge ++ " already exists - skipping creation.")

/-- Claim the loop body of delete_vpc (lines 96-99): for each listed
namespace, delete it (check=False) when its name starts with the VPC name. -/
def delNsStep (vpc_name : String) (o : OpOut) (ns : String) : OpOut :=
  if ns.startsWith vpc_name then
    ((o.log ("[INFO] Removing namespace " ++ ns)).runNoCheck (Cmd.netnsDelete ns))
  else o

/-- Claim delete_vpc from the source (lines 85-107).  The namespace list is
snapshotted once (one `ip netns list` call) and then iterated while state
mutates, exactly as in the source. -/
def delete_vpc (st : HostState) (vpc_name : String) : OpOut :=
  let bridge := vpc_name ++ "-br"
  let o := (OpOut.init st).log
    ("[INFO] Deleting VPC " ++ vpc_name ++ " and associated resources...")
  let o := st.namespaces.foldl (delNsStep vpc_name) o
  if exists_bridge o.state bridge then
    let o := o.runNoCheck (Cmd.linkSetDown bridge)
    let o := o.runNoCheck (Cmd.linkDel bridge)
    o.log ("[SUCCESS] VPC " ++ vpc_name ++ " deleted successfully.")
  else
    o.log ("[WARN] Bridge " ++ bridge ++ " not found - skipping deletion.")

/-- Claim add_subnet from the source (lines 110-145). -/
def add_subnet (st : HostState) (vpc_name subnet_name cidr subnet_type : String) : OpOut :=
  let bridge := vpc_name ++ "-br"
  let ns := ns_name vpc_name subnet_name
  let veth_host := veth_host_name vpc_name subnet_name
  let veth_ns := veth_ns_name vpc_name subnet_name
  let o := (OpOut.init st).log
    ("[INFO] Adding subnet " ++ subnet_name ++ " (" ++ subnet_type ++ ") with CIDR " ++ cidr)
  let o :=
    if !(exists_ns st ns) then o.run (Cmd.netnsAdd ns)
    else o.log ("[INFO] Namespace " ++ ns ++ " already exists.")
  let o := cleanup_veth o veth_host
  let o := o.run (Cmd.linkAddVeth veth_host veth_ns)
  let o := o.run (Cmd.linkSetMaster veth_host bridge)
  let o := o.run (Cmd.linkSetUp veth_host)
  let o := o.run (Cmd.linkSetNetns veth_ns ns)
  let o := o.run (Cmd.nsLinkSetUp ns veth_ns)
  let base_ip := base_ip_of cidr
  let o := o.run (Cmd.nsAddrAdd ns base_ip veth_ns)
  let gateway := gatewayFromBase base_ip
  let o := o.run (Cmd.nsRouteDefault ns gateway)
  o.log ("[SUCCESS] Subnet " ++ subnet_name ++ " added successfully to VPC " ++ vpc_name ++ ".")

/-- Claim configure_nat from the source (lines 148-156). -/
def configure_nat (st : HostState) (subnet_ns internet_iface : String) : OpOut :=
  let o := (OpOut.init st).log
    ("[INFO] Configuring NAT for namespace " ++ subnet_ns ++ " via interface " ++ internet_iface)
  let o := o.run (Cmd.nsNatMasquerade subnet_ns internet_iface)
  o.log ("[SUCCESS] NAT configured for " ++ subnet_ns ++ ".")

/-- Claim peer_vpcs from the source (lines 159-178). -/
def peer_vpcs (st : HostState) (vpc1 vpc2 : String) : OpOut :=
  let br1 := vpc1 ++ "-br"
  let br2 := vpc2 ++ "-br"
  let peer0 := peer0_name vpc1 vpc2
  let peer1 := peer1_name vpc1 vpc2
  let o := (OpOut.init st).log
    ("[INFO] Creating VPC peering connection between " ++ vpc1 ++ " and " ++ vpc2)
  let o := cleanup_veth o peer0
  let o := o.run (Cmd.linkAddVeth peer0 peer1)
  let o := o.run (Cmd.linkSetMaster peer0 br1)
  let o := o.run (Cmd.linkSetMaster peer1 br2)
  let o := o.run (Cmd.linkSetUp peer0)
  let o := o.run (Cmd.linkSetUp peer1)
  o.log ("[SUCCESS] VPCs " ++ vpc1 ++ " and " ++ vpc2 ++ " peered successfully.")

/-- Claim one ingress rule of the policy document. -/
structure Rule where
  protocol : String
  port : Int
  action : String
deriving DecidableEq

/-- Claim the parsed policy document.  `none` in a field models the key
being absent from the JSON object. -/
structure Policy where
  subnet : Option String
  ingress : Option (List Rule)
deriving DecidableEq

/-- Claim the loop body of apply_policy (lines 200-207). -/
def policyStep (subnet : String) (o : OpOut) (rule : Rule) : OpOut :=
  let port := rule.port
  let proto := rule.protocol
  let action := rule.action
  if action == "allow" then o.run (Cmd.nsFilterAppend subnet proto port "ACCEPT")
  else o.run (Cmd.nsFilterAppend subnet proto port "DROP")

/-- Claim apply_policy from the source (lines 181-208).  Accessing a
missing "subnet" key raises an uncaught KeyError, which terminates the
Python process with a non-zero exit code before any rule is installed;
this is the `Except.error` branch.  A missing "ingress" key defaults to
the empty rule list via dict.get. -/
def apply_policy (st : HostState) (policy_file : String) (policy : Policy) :
    Except String OpOut :=
  let o := (OpOut.init st).log ("[INFO] Applying policy from " ++ policy_file)
  match policy.subnet with
  | none => Except.error "KeyError: subnet"
  | some subnet =>
    let ingress := policy.ingress.getD []
    let o := ingress.foldl (policyStep subnet) o
    Except.ok (o.log ("[SUCCESS] Security policy applied to subnet " ++ subnet ++ "."))

/-- Claim the argparse surface of main (lines 215-221): exactly these six
options exist; there is no NAT option. -/
structure Args where
  create_vpc : Option (String × String)
  delete_vpc : Option String
  add_subnet : Option (String × String × String × String)
  peer_vpcs : Option (String × String)
  apply_policy : Option String
  cleanup : Bool
deriving DecidableEq

/-- Claim which operation the dispatcher selects. -/
inductive Dispatched where
  | createVpc (vpc_name cidr_block : String)
  | deleteVpc (vpc_name : String)
  | addSubnet (vpc_name subnet_name cidr ty : String)
  | peerVpcs (vpc1 vpc2 : String)
  | applyPolicy (json_file : String)
  | configureNat (subnet_ns iface : String)
  | cleanupAll
  | help
deriving DecidableEq

/-- Claim the if/elif dispatch chain of main (lines 225-241). -/
def main_dispatch (args : Args) : Dispatched :=
  match args.create_vpc with
  | some (vpc_name, cidr_block) => Dispatched.createVpc vpc_name cidr_block
  | none =>
    match args.delete_vpc with
    | some vpc_name => Dispatched.deleteVpc vpc_name
    | none =>
      match args.add_subnet with
      | some (v, s, c, t) => Dispatched.addSubnet v s c t
      | none =>
        match args.peer_vpcs with
        | some (v1, v2) => Dispatched.peerVpcs v1 v2
        | none =>
          match args.apply_policy with
          | some f => Dispatched.applyPolicy f
          | none => if args.cleanup then Dispatched.cleanupAll else Dispatched.help

/-! ## Identifier generation (C2) -/

/-- Claim C2: the spec says endpoint identifiers are built by stripping
separators, truncating each fragment to 4 characters and the whole result
to 15.  False: the source performs no stripping or truncation, so the
identifier generated for the fragments of the specification example is 42
characters long, far beyond the 15-character limit. -/
theorem C2_counterexample :
    15 < (veth_host_name "verylongnetworkname" "anotherlongsubnet").length
    ∧ (veth_host_name "verylongnetworkname" "anotherlongsubnet").length = 42 := by
  constructor <;> decide

/-- Claim C2 (amended): the generated endpoint identifiers are the plain
concatenation of a role marker ("veth-" for subnet cable ends, "peer-" for
peering ends) with the untruncated human-supplied fragments joined by
separator dashes; their length grows linearly with the fragment lengths and
is not limited to 15 characters. -/
theorem C2_amended (vpc_name subnet_name vpc1 vpc2 : String) :
    veth_host_name vpc_name subnet_name = "veth-" ++ vpc_name ++ "-" ++ subnet_name
    ∧ (veth_host_name vpc_name subnet_name).length
        = 6 + vpc_name.length + subnet_name.length
    ∧ peer0_name vpc1 vpc2 = "peer-" ++ vpc1 ++ "-" ++ vpc2 ++ "-0"
    ∧ (peer0_name vpc1 vpc2).length = 8 + vpc1.length + vpc2.length := by
  have h5 : ("veth-" : String).length = 5 := rfl
  have hp : ("peer-" : String).length = 5 := rfl
  have hd : ("-" : String).length = 1 := rfl
  have h0 : ("-0" : String).length = 2 := rfl
  refine ⟨?_, ?_, rfl, ?_⟩
  · simp [veth_host_name, ns_name, String.append_assoc]
  · simp [veth_host_name, ns_name, String.length_append, h5, hd]; omega
  · simp [peer0_name, String.length_append, hp, hd, h0]; omega

/-! ## NAT configuration and the dispatcher (C3) -/

/-- Claim C3: the spec lists configure-nat as a CLI command.  The
configure_nat function indeed installs exactly one masquerade rule for the
given namespace and uplink, but the argument parser of main defines no NAT
option and its dispatch chain can never select the NAT operation, so no
command-line invocation reaches configure_nat (its own docstring advertises
a --nat flag that does not exist). -/
theorem C3_configure_nat_unreachable :
    (∀ st subnet_ns iface, (configure_nat st subnet_ns iface).state.natRules
        = st.natRules ++ [(subnet_ns, iface)])
    ∧ (∀ args subnet_ns iface,
        main_dispatch args ≠ Dispatched.configureNat subnet_ns iface) := by
  constructor
  · intro st subnet_ns iface
    rfl
  · intro args subnet_ns iface
    rcases args with ⟨(_ | ⟨a, b⟩), (_ | d), (_ | ⟨a1, a2, a3, a4⟩), (_ | ⟨p1, p2⟩),
      (_ | f), (_ | _)⟩ <;> simp [main_dispatch]

/-! ## Policy validation (C7) and unknown actions (C10) -/

/-- Claim C7: a policy document without the subnet field is a fatal
validation error — the operation aborts (no rule is installed, no command
runs) and the process exits non-zero (modelled by the error result); a
document without the ingress field is treated as an empty rule list and
succeeds installing nothing. -/
theorem C7_apply_policy_validation (st : HostState) (policy_file sub : String)
    (ing : Option (List Rule)) :
    apply_policy st policy_file { subnet := none, ingress := ing }
      = Except.error "KeyError: subnet"
    ∧ apply_policy st policy_file { subnet := some sub, ingress := none }
      = Except.ok ⟨st, [],
          ["[INFO] Applying policy from " ++ policy_file,
           "[SUCCESS] Security policy applied to subnet " ++ sub ++ "."]⟩ := by
  exact ⟨rfl, rfl⟩

/-- Claim C10: the action field is not validated: any action other than the
exact string "allow" — here an arbitrary string with a concrete misspelling
as witness — installs a DROP filter rule for the given protocol and port. -/
theorem C10_non_allow_is_drop (st : HostState) (policy_file sub proto act : String)
    (port : Int) (h : act ≠ "allow") :
    apply_policy st policy_file
        { subnet := some sub,
          ingress := some [{ protocol := proto, port := port, action := act }] }
      = Except.ok ⟨{ st with filterRules := st.filterRules ++ [(sub, proto, port, "DROP")] },
          [(Cmd.nsFilterAppend sub proto port "DROP", true)],
          ["[INFO] Applying policy from " ++ policy_file,
           "[SUCCESS] Security policy applied to subnet " ++ sub ++ "."]⟩ := by
  have hb : (act == "allow") = false := beq_eq_false_iff_ne.mpr h
  simp [apply_policy, policyStep, hb, OpOut.run, OpOut.log, OpOut.init, applyCmd]

/-- Claim C10 witness: the misspelt action "dney" (and likewise "deny")
yields a DROP rule. -/
theorem C10_witness :
    ("dney" : String) ≠ "allow"
    ∧ apply_policy initState "policy.json"
        { subnet := some "vpc1-subnetA",
          ingress := some [{ protocol := "tcp", port := 80, action := "dney" }] }
      = Except.ok ⟨{ initState with filterRules := [("vpc1-subnetA", "tcp", 80, "DROP")] },
          [(Cmd.nsFilterAppend "vpc1-subnetA" "tcp" 80 "DROP", true)],
          ["[INFO] Applying policy from " ++ "policy.json",
           "[SUCCESS] Security policy applied to subnet " ++ "vpc1-subnetA" ++ "."]⟩ := by
  refine ⟨by decide, ?_⟩
  exact C10_non_allow_is_drop initState "policy.json" "vpc1-subnetA" "tcp" "dney" 80 (by decide)

/-! ## Address derivation in add_subnet (C1, C9) -/

/-- Claim helper: the address and route effects of add_subnet for an
arbitrary starting state.  The only address assignment the operation issues
is the bare base address of the CIDR inside the namespace; the only route is
a default route via the string obtained by dropping the last character of
the base address and appending "1".  No command assigning an address to the
bridge exists anywhere in the source. -/
theorem add_subnet_addr_route (st : HostState) (vpc_name subnet_name cidr ty : String) :
    (add_subnet st vpc_name subnet_name cidr ty).state.addrs
      = st.addrs ++ [(ns_name vpc_name subnet_name, base_ip_of cidr,
          veth_ns_name vpc_name subnet_name)]
    ∧ (add_subnet st vpc_name subnet_name cidr ty).state.routes
      = st.routes ++ [(ns_name vpc_name subnet_name, gatewayFromBase (base_ip_of cidr))] := by
  unfold add_subnet
  cases h : exists_ns st (ns_name vpc_name subnet_name) <;>
    simp [h, cleanup_veth, OpOut.run, OpOut.runNoCheck, OpOut.log, OpOut.init, applyCmd]

/-- Claim C1: the spec says the switch gets gateway A.B.C.1/len, the context
gets A.B.C.2/len and the default route goes via the gateway.  False even at
the specification example 10.0.1.0/24: the only address assignment is the
bare network base 10.0.1.0 (without prefix length) inside the context —
neither 10.0.1.2/24 nor any switch address 10.0.1.1/24 is ever assigned. -/
theorem C1_counterexample :
    (add_subnet initState "net" "sub" "10.0.1.0/24" "private").state.addrs
      = [("net-sub", "10.0.1.0", "veth-net-sub-ns")]
    ∧ ("net-sub", "10.0.1.2/24", "veth-net-sub-ns")
        ∉ (add_subnet initState "net" "sub" "10.0.1.0/24" "private").state.addrs
    ∧ (add_subnet initState "net" "sub" "10.0.1.0/24" "private").state.routes
      = [("net-sub", "10.0.1.1")] := by
  refine ⟨by decide, by decide, by decide⟩

/-- Claim C1 (amended): add-subnetwork assigns exactly one address — the
bare base address of the block, without prefix length — to the cable end
inside the context; it assigns no address to the virtual switch; and it
installs one default route inside the context via the string obtained by
dropping the final character of the base address and appending "1" (which
equals A.B.C.1 for the example block 10.0.1.0/24). -/
theorem C1_amended (st : HostState) (network subnet cidr ty : String) :
    (add_subnet st network subnet cidr ty).state.addrs
      = st.addrs ++ [(ns_name network subnet, base_ip_of cidr, veth_ns_name network subnet)]
    ∧ (add_subnet st network subnet cidr ty).state.routes
      = st.routes ++ [(ns_name network subnet, gatewayFromBase (base_ip_of cidr))]
    ∧ base_ip_of "10.0.1.0/24" = "10.0.1.0"
    ∧ gatewayFromBase "10.0.1.0" = "10.0.1.1" := by
  refine ⟨(add_subnet_addr_route st network subnet cidr ty).1,
    (add_subnet_addr_route st network subnet cidr ty).2, by decide, by decide⟩

/-- Claim helper: the gateway string coincides with "first three octets
+ .1" exactly when the final octet of the base address is one single
character, because dropping the last character then erases the whole final
octet. -/
theorem gatewayFromBase_eq_iff (p d : String) (hd : d ≠ "") :
    (gatewayFromBase (p ++ "." ++ d) = p ++ ".1" ↔ d.length = 1) := by
  have hdd : d.data ≠ [] := fun h => hd (String.ext h)
  have hlen : d.length = d.data.length := rfl
  have hnil : d.data.dropLast = [] ↔ d.data.length = 1 := by
    have hl := List.length_dropLast d.data
    have h0 : d.data.length ≠ 0 := fun h => hdd (List.length_eq_zero.mp h)
    constructor
    · intro h
      rw [h] at hl
      simp only [List.length_nil] at hl
      omega
    · intro h
      have : d.data.dropLast.length = 0 := by omega
      exact List.length_eq_zero.mp this
  have hL : (gatewayFromBase (p ++ "." ++ d)).data
      = p.data ++ '.' :: (d.data.dropLast ++ ['1']) := by
    have hdot : ("." : String).data = ['.'] := rfl
    simp only [gatewayFromBase, strDropLast, String.data_append, hdot]
    rw [List.dropLast_append_of_ne_nil _ hdd]
    simp [List.append_assoc]
  have hR : (p ++ ".1").data = p.data ++ '.' :: ['1'] := by
    have hdot1 : (".1" : String).data = ['.', '1'] := rfl
    simp only [String.data_append, hdot1]
  rw [String.ext_iff, hL, hR]
  constructor
  · intro h
    have h2 := List.append_cancel_left h
    simp only [List.cons.injEq, true_and] at h2
    have h3 : d.data.dropLast = [] := by
      have := List.append_left_eq_self.mp h2
      exact this
    rw [hlen]
    exact hnil.mp h3
  · intro h
    have h2 : d.data.dropLast = [] := hnil.mpr (by rw [← hlen]; exact h)
    rw [h2]
    rfl

/-- Claim C9: the gateway is indeed derived by dropping the final character
of the base-address string and appending "1", and the context address is
the bare base address; but the coincidence with A.B.C.1 happens for every
single-character final octet, not only for the digit 0 — for base 10.0.1.5
the gateway is 10.0.1.1 (first three octets + .1) although the final octet
is 5, refuting the "exactly when ... the single digit 0" part. -/
theorem C9_counterexample :
    base_ip_of "10.0.1.5/24" = "10.0.1.5"
    ∧ gatewayFromBase "10.0.1.5" = "10.0.1.1"
    ∧ (add_subnet initState "net" "sub" "10.0.1.5/24" "private").state.routes
      = [("net-sub", "10.0.1.1")]
    ∧ ("5" : String) ≠ "0" := by
  refine ⟨by decide, by decide, by decide, by decide⟩

/-- Claim C9 (amended): the default-route gateway is derived from the base
address by dropping its final character and appending "1"; this coincides
with "first three octets + .1" exactly when the final octet of the base
address consists of a single character; and the address assigned inside the
context is the bare base address with no prefix length. -/
theorem C9_amended (st : HostState) (network subnet cidr ty p d : String)
    (hsplit : base_ip_of cidr = p ++ "." ++ d) (hd : d ≠ "") :
    (add_subnet st network subnet cidr ty).state.addrs
      = st.addrs ++ [(ns_name network subnet, p ++ "." ++ d, veth_ns_name network subnet)]
    ∧ (add_subnet st network subnet cidr ty).state.routes
      = st.routes ++ [(ns_name network subnet, gatewayFromBase (p ++ "." ++ d))]
    ∧ (gatewayFromBase (p ++ "." ++ d) = p ++ ".1" ↔ d.length = 1) := by
  refine ⟨?_, ?_, gatewayFromBase_eq_iff p d hd⟩
  · rw [← hsplit]; exact (add_subnet_addr_route st network subnet cidr ty).1
  · rw [← hsplit]; exact (add_subnet_addr_route st network subnet cidr ty).2

/-- Claim C9 witness: the amended statement at the concrete block
10.0.1.0/24, final octet "0". -/
theorem C9_amended_witness :
    base_ip_of "10.0.1.0/24" = "10.0.1" ++ "." ++ "0"
    ∧ ("0" : String) ≠ ""
    ∧ (add_subnet initState "net" "sub" "10.0.1.0/24" "private").state.routes
      = [("net-sub", gatewayFromBase ("10.0.1" ++ "." ++ "0"))]
    ∧ (gatewayFromBase ("10.0.1" ++ "." ++ "0") = "10.0.1" ++ ".1"
        ↔ ("0" : String).length = 1) := by
  refine ⟨by decide, by decide, ?_, ?_⟩
  · exact (C9_amended initState "net" "sub" "10.0.1.0/24" "private" "10.0.1" "0"
      (by decide) (by decide)).2.1
  · exact (C9_amended initState "net" "sub" "10.0.1.0/24" "private" "10.0.1" "0"
      (by decide) (by decide)).2.2

/-! ## Network creation idempotency (C5) -/

/-- Claim C5: create-network is check-then-act idempotent: starting from a
state without the switch, the first call creates exactly one switch; the
second call probes the switch as present, performs no primitive mutation
(empty trace), logs the skip message, leaves the state unchanged, and the
switch count for the network is still exactly one. -/
theorem C5_create_vpc_idempotent (st : HostState) (name cidr cidr2 : String)
    (h : exists_bridge st (name ++ "-br") = false) :
    ((create_vpc st name cidr).state.bridges.countP
        (fun b => b.name == name ++ "-br") = 1)
    ∧ (create_vpc (create_vpc st name cidr).state name cidr2).state
        = (create_vpc st name cidr).state
    ∧ (create_vpc (create_vpc st name cidr).state name cidr2).trace = []
    ∧ (create_vpc (create_vpc st name cidr).state name cidr2).logs
        = ["[INFO] Creating VPC " ++ name ++ " with bridge " ++ (name ++ "-br")
             ++ " and CIDR " ++ cidr2,
           "[INFO] Bridge " ++ (name ++ "-br") ++ " already exists - skipping creation."]
    ∧ ((create_vpc (create_vpc st name cidr).state name cidr2).state.bridges.countP
        (fun b => b.name == name ++ "-br") = 1) := by
  have hbridges : (create_vpc st name cidr).state.bridges
      = (st.bridges ++ [({ name := name ++ "-br", up := false } : Bridge)]).map
          (fun (b : Bridge) => if b.name == name ++ "-br" then { b with up := true } else b) := by
    simp [create_vpc, h, OpOut.run, OpOut.log, OpOut.init, applyCmd]
  have hname : ∀ b : Bridge,
      ((if b.name == name ++ "-br" then { b with up := true } else b).name
        == name ++ "-br") = (b.name == name ++ "-br") := by
    intro b
    cases hb : b.name == name ++ "-br" <;> simp [hb]
  have hex2 : exists_bridge (create_vpc st name cidr).state (name ++ "-br") = true := by
    rw [exists_bridge, hbridges]
    rw [List.any_eq_true]
    refine ⟨({ name := name ++ "-br", up := true } : Bridge), ?_, by simp⟩
    refine List.mem_map.mpr
      ⟨({ name := name ++ "-br", up := false } : Bridge), by simp, by simp⟩
  have hcount : (create_vpc st name cidr).state.bridges.countP
      (fun b => b.name == name ++ "-br") = 1 := by
    rw [hbridges, List.countP_map, List.countP_append]
    have h' : st.bridges.any (fun b => b.name == name ++ "-br") = false := h
    have h1 : List.countP ((fun b => b.name == name ++ "-br") ∘
        (fun b => if b.name == name ++ "-br" then { b with up := true } else b))
          st.bridges = 0 := by
      rw [List.countP_eq_zero]
      intro b hb
      have hfalse := (List.any_eq_false.mp h') b hb
      simp only [Function.comp_apply, hname b]
      simpa using hfalse
    rw [h1]
    simp [Function.comp, List.countP_cons]
  have hsecond : create_vpc (create_vpc st name cidr).state name cidr2
      = ((OpOut.init (create_vpc st name cidr).state).log
          ("[INFO] Creating VPC " ++ name ++ " with bridge " ++ (name ++ "-br")
            ++ " and CIDR " ++ cidr2)).log
          ("[INFO] Bridge " ++ (name ++ "-br") ++ " already exists - skipping creation.") := by
    rw [create_vpc]
    simp [hex2]
  refine ⟨hcount, ?_, ?_, ?_, ?_⟩
  · rw [hsecond]; rfl
  · rw [hsecond]; rfl
  · rw [hsecond]; rfl
  · rw [hsecond]
    exact hcount

/-- Claim C5 witness: the idempotent lifecycle at network "a" starting from
the empty host state. -/
theorem C5_witness :
    exists_bridge initState ("a" ++ "-br") = false
    ∧ (create_vpc (create_vpc initState "a" "10.0.0.0/16").state "a" "10.0.0.0/16").state
        = (create_vpc initState "a" "10.0.0.0/16").state
    ∧ (create_vpc (create_vpc initState "a" "10.0.0.0/16").state "a" "10.0.0.0/16").trace
        = [] := by
  refine ⟨rfl, ?_, ?_⟩
  · exact (C5_create_vpc_idempotent initState "a" "10.0.0.0/16" "10.0.0.0/16" rfl).2.1
  · exact (C5_create_vpc_idempotent initState "a" "10.0.0.0/16" "10.0.0.0/16" rfl).2.2.1

/-! ## Cascading delete (C4) -/

/-- Claim the namespace-deletion loop never touches bridges. -/
theorem delLoop_bridges (vpc_name : String) (L : List String) (o : OpOut) :
    (L.foldl (delNsStep vpc_name) o).state.bridges = o.state.bridges := by
  induction L generalizing o with
  | nil => rfl
  | cons x xs ih =>
      rw [List.foldl_cons, ih]
      cases hx : x.startsWith vpc_name <;>
        simp [delNsStep, hx, OpOut.runNoCheck, OpOut.log, applyCmd]

/-- Claim the loop issues one tolerated netns delete per matching name, in
list order. -/
theorem delLoop_trace (vpc_name : String) (L : List String) (o : OpOut) :
    (L.foldl (delNsStep vpc_name) o).trace
      = o.trace ++ (L.filter (fun ns => ns.startsWith vpc_name)).map
          (fun ns => (Cmd.netnsDelete ns, false)) := by
  induction L generalizing o with
  | nil => simp
  | cons x xs ih =>
      rw [List.foldl_cons, ih]
      cases hx : x.startsWith vpc_name <;>
        simp [delNsStep, hx, OpOut.runNoCheck, OpOut.log, List.filter_cons]

/-- Claim the loop does nothing at all when no listed name matches. -/
theorem delLoop_noop (vpc_name : String) (L : List String) :
    ∀ o : OpOut, (∀ ns ∈ L, ns.startsWith vpc_name = false) →
      L.foldl (delNsStep vpc_name) o = o := by
  induction L with
  | nil => intro o _; rfl
  | cons x xs ih =>
      intro o h
      rw [List.foldl_cons]
      have hx := h x (List.mem_cons_self x xs)
      have hstep : delNsStep vpc_name o x = o := by simp [delNsStep, hx]
      rw [hstep]
      exact ih o (fun ns hns => h ns (List.mem_cons_of_mem x hns))

/-- Claim the loop removes from the namespace list exactly the listed names
that match the prefix. -/
theorem delLoop_namespaces (vpc_name : String) (L : List String) (o : OpOut) :
    (L.foldl (delNsStep vpc_name) o).state.namespaces
      = o.state.namespaces.filter
          (fun m => !(L.contains m && m.startsWith vpc_name)) := by
  induction L generalizing o with
  | nil => simp
  | cons x xs ih =>
      rw [List.foldl_cons, ih]
      cases hx : x.startsWith vpc_name
      case false =>
        have hstep : delNsStep vpc_name o x = o := by simp [delNsStep, hx]
        rw [hstep]
        apply List.filter_congr
        intro m _
        by_cases hm : m = x
        · subst hm; simp [List.contains_cons, hx]
        · simp [List.contains_cons, hm]
      case true =>
        have hstep : (delNsStep vpc_name o x).state.namespaces
            = o.state.namespaces.filter (fun m => !(m == x)) := by
          simp [delNsStep, hx, OpOut.runNoCheck, OpOut.log, applyCmd]
        rw [hstep, List.filter_filter]
        apply List.filter_congr
        intro m _
        by_cases hm : m = x
        · subst hm; simp [List.contains_cons, hx]
        · simp [List.contains_cons, hm]

/-- Claim a list filtered on the negation of a predicate satisfies no
occurrence of the predicate. -/
theorem any_filter_not {α : Type} (l : List α) (p : α → Bool) :
    (l.filter (fun a => !(p a))).any p = false := by
  rw [List.any_filter, List.any_eq_false]
  intro b _
  cases hp : p b <;> simp [hp]

/-- Claim shorthand: the intermediate output of delete_vpc right after its
namespace-deletion loop. -/
def delLoopOut (st : HostState) (name : String) : OpOut :=
  List.foldl (delNsStep name)
    ((OpOut.init st).log ("[INFO] Deleting VPC " ++ name ++ " and associated resources..."))
    st.namespaces

/-- Claim delete_vpc reduced to its two bridge-probe branches, with the
probe taken after the namespace loop (which never changes bridges). -/
theorem delete_vpc_cases (st : HostState) (name : String) :
    delete_vpc st name =
      if exists_bridge st (name ++ "-br") then
        (((delLoopOut st name).runNoCheck (Cmd.linkSetDown (name ++ "-br"))).runNoCheck
            (Cmd.linkDel (name ++ "-br"))).log
          ("[SUCCESS] VPC " ++ name ++ " deleted successfully.")
      else
        (delLoopOut st name).log
          ("[WARN] Bridge " ++ (name ++ "-br") ++ " not found - skipping deletion.") := by
  have hb : exists_bridge (delLoopOut st name).state (name ++ "-br")
      = exists_bridge st (name ++ "-br") := by
    rw [exists_bridge, exists_bridge, delLoopOut, delLoop_bridges]
    rfl
  simp only [delete_vpc]
  rw [show List.foldl (delNsStep name)
      ((OpOut.init st).log ("[INFO] Deleting VPC " ++ name ++ " and associated resources..."))
      st.namespaces = delLoopOut st name from rfl]
  rw [hb]

/-- Claim C4: delete-network removes every isolated context whose name
starts with the network name (one tolerated netns delete per matching
context, in list order), then — only if the switch exists — deactivates and
removes the switch (both tolerated); afterwards the switch no longer
exists, and running delete-network again is a complete no-op: it issues no
command, leaves the state unchanged, and merely logs that the switch was
not found. -/
theorem C4_delete_vpc (st : HostState) (name : String) :
    (delete_vpc st name).state.namespaces
      = st.namespaces.filter (fun ns => !(ns.startsWith name))
    ∧ (delete_vpc st name).trace
      = (st.namespaces.filter (fun ns => ns.startsWith name)).map
          (fun ns => (Cmd.netnsDelete ns, false))
        ++ (if exists_bridge st (name ++ "-br") then
              [(Cmd.linkSetDown (name ++ "-br"), false),
               (Cmd.linkDel (name ++ "-br"), false)]
            else [])
    ∧ exists_bridge (delete_vpc st name).state (name ++ "-br") = false
    ∧ delete_vpc (delete_vpc st name).state name
      = ⟨(delete_vpc st name).state, [],
         ["[INFO] Deleting VPC " ++ name ++ " and associated resources...",
          "[WARN] Bridge " ++ (name ++ "-br") ++ " not found - skipping deletion."]⟩ := by
  have hns1 : (delLoopOut st name).state.namespaces
      = st.namespaces.filter (fun m => !(m.startsWith name)) := by
    rw [delLoopOut, delLoop_namespaces]
    rw [show ((OpOut.init st).log
        ("[INFO] Deleting VPC " ++ name ++ " and associated resources...")).state.namespaces
        = st.namespaces from rfl]
    apply List.filter_congr
    intro m hm
    simp [hm]
  have htr1 : (delLoopOut st name).trace
      = (st.namespaces.filter (fun ns => ns.startsWith name)).map
          (fun ns => (Cmd.netnsDelete ns, false)) := by
    rw [delLoopOut, delLoop_trace]
    rfl
  have hnamespaces : (delete_vpc st name).state.namespaces
      = st.namespaces.filter (fun ns => !(ns.startsWith name)) := by
    rw [delete_vpc_cases]
    cases hbr : exists_bridge st (name ++ "-br") <;>
      simp [hbr, OpOut.runNoCheck, OpOut.log, applyCmd, hns1]
  have htrace : (delete_vpc st name).trace
      = (st.namespaces.filter (fun ns => ns.startsWith name)).map
          (fun ns => (Cmd.netnsDelete ns, false))
        ++ (if exists_bridge st (name ++ "-br") then
              [(Cmd.linkSetDown (name ++ "-br"), false),
               (Cmd.linkDel (name ++ "-br"), false)]
            else []) := by
    rw [delete_vpc_cases]
    cases hbr : exists_bridge st (name ++ "-br") <;>
      simp [hbr, OpOut.runNoCheck, OpOut.log, htr1]
  have hbridge : exists_bridge (delete_vpc st name).state (name ++ "-br") = false := by
    rw [delete_vpc_cases]
    cases hbr : exists_bridge st (name ++ "-br")
    · simp only [Bool.false_eq_true, if_false]
      rw [show ((delLoopOut st name).log
          ("[WARN] Bridge " ++ (name ++ "-br") ++ " not found - skipping deletion.")).state
          = (delLoopOut st name).state from rfl]
      rw [show exists_bridge (delLoopOut st name).state (name ++ "-br")
          = exists_bridge st (name ++ "-br") from by
        rw [exists_bridge, exists_bridge, delLoopOut, delLoop_bridges]; rfl]
      exact hbr
    · simp only [if_true]
      rw [exists_bridge]
      exact any_filter_not _ _
  refine ⟨hnamespaces, htrace, hbridge, ?_⟩
  rw [delete_vpc_cases, hbridge]
  simp only [Bool.false_eq_true, if_false]
  rw [delLoopOut, delLoop_noop name (delete_vpc st name).state.namespaces _ ?_]
  · rfl
  · intro ns hns
    rw [hnamespaces] at hns
    have hp := (List.mem_filter.mp hns).2
    simpa using hp

/-! ## Policy accumulation (C8) -/

/-- Claim the filter target chosen for one rule (lines 204-207). -/
def ruleTarget (r : Rule) : String := if r.action == "allow" then "ACCEPT" else "DROP"

/-- Claim the filter-table entry one rule installs in the named context. -/
def ruleFilterEntry (sub : String) (r : Rule) : String × String × Int × String :=
  (sub, r.protocol, r.port, ruleTarget r)

/-- Claim the rule loop of apply_policy appends exactly one filter rule per
list element, in order, touching nothing else. -/
theorem policyLoop (sub : String) (R : List Rule) (o : OpOut) :
    R.foldl (policyStep sub) o
      = ⟨{ o.state with filterRules := o.state.filterRules ++ R.map (ruleFilterEntry sub) },
         o.trace ++ R.map (fun r =>
            (Cmd.nsFilterAppend sub r.protocol r.port (ruleTarget r), true)),
         o.logs⟩ := by
  induction R generalizing o with
  | nil => simp
  | cons r rs ih =>
      rw [List.foldl_cons, ih]
      by_cases hr : r.action = "allow" <;>
        simp [policyStep, hr, ruleFilterEntry, ruleTarget, OpOut.run, applyCmd,
          List.append_assoc]

/-- Claim C8: applying a policy with rule list R appends exactly one filter
rule per element of R, in list order, in the named context, and removes
nothing: the previous filter rules stay as a prefix.  Applying the same
document again from the resulting state appends the same rules a second
time, giving two entries per rule. -/
theorem C8_policy_append (st : HostState) (policy_file sub : String) (R : List Rule) :
    apply_policy st policy_file { subnet := some sub, ingress := some R }
      = Except.ok ⟨{ st with filterRules := st.filterRules ++ R.map (ruleFilterEntry sub) },
          R.map (fun r => (Cmd.nsFilterAppend sub r.protocol r.port (ruleTarget r), true)),
          ["[INFO] Applying policy from " ++ policy_file,
           "[SUCCESS] Security policy applied to subnet " ++ sub ++ "."]⟩
    ∧ apply_policy { st with filterRules := st.filterRules ++ R.map (ruleFilterEntry sub) }
          policy_file { subnet := some sub, ingress := some R }
      = Except.ok ⟨{ st with filterRules :=
            (st.filterRules ++ R.map (ruleFilterEntry sub)) ++ R.map (ruleFilterEntry sub) },
          R.map (fun r => (Cmd.nsFilterAppend sub r.protocol r.port (ruleTarget r), true)),
          ["[INFO] Applying policy from " ++ policy_file,
           "[SUCCESS] Security policy applied to subnet " ++ sub ++ "."]⟩ := by
  have key : ∀ s : HostState,
      apply_policy s policy_file { subnet := some sub, ingress := some R }
      = Except.ok ⟨{ s with filterRules := s.filterRules ++ R.map (ruleFilterEntry sub) },
          R.map (fun r => (Cmd.nsFilterAppend sub r.protocol r.port (ruleTarget r), true)),
          ["[INFO] Applying policy from " ++ policy_file,
           "[SUCCESS] Security policy applied to subnet " ++ sub ++ "."]⟩ := by
    intro s
    simp only [apply_policy, Option.getD]
    rw [policyLoop]
    simp [OpOut.init, OpOut.log]
  exact ⟨key st, key _⟩

/-! ## Peering identifiers and effect (C6) -/

/-- Claim a dash-free list strictly shorter than a second dash-free list
cannot head the same dash-separated concatenation. -/
theorem sep_ne_of_lt (a b ta tb : List Char) (hb : ('-' : Char) ∉ b)
    (hlt : a.length < b.length) : a ++ '-' :: ta ≠ b ++ '-' :: tb := by
  intro h
  apply hb
  have h1 : (a ++ '-' :: ta).take b.length = b := by
    rw [h, List.take_left]
  rw [List.take_append_eq_append_take,
    List.take_of_length_le (le_of_lt hlt)] at h1
  obtain ⟨k, hk⟩ : ∃ k, b.length - a.length = k + 1 :=
    ⟨b.length - a.length - 1, by omega⟩
  rw [hk, List.take_succ_cons] at h1
  rw [← h1]
  exact List.mem_append_right _ (List.mem_cons_self _ _)

/-- Claim the head fragments of equal dash-separated concatenations agree
when both are dash-free. -/
theorem sep_inj (a b ta tb : List Char) (ha : ('-' : Char) ∉ a) (hb : ('-' : Char) ∉ b)
    (h : a ++ '-' :: ta = b ++ '-' :: tb) : a = b := by
  rcases Nat.lt_trichotomy a.length b.length with hlt | heq | hgt
  · exact absurd h (sep_ne_of_lt a b ta tb hb hlt)
  · exact (List.append_inj h heq).1
  · exact absurd h.symm (sep_ne_of_lt b a tb ta ha hgt)

/-- Claim swapping the two dash-free network names changes every peering
endpoint identifier, whatever the numeric suffixes are. -/
theorem dashed_pair_ne (x y sx sy : String) (hx : ('-' : Char) ∉ x.data)
    (hy : ('-' : Char) ∉ y.data) (hne : x ≠ y) :
    "peer-" ++ x ++ "-" ++ y ++ sx ≠ "peer-" ++ y ++ "-" ++ x ++ sy := by
  intro h
  apply hne
  apply String.ext
  have hd := congrArg String.data h
  have hpeer : ("peer-" : String).data = ['p', 'e', 'e', 'r', '-'] := rfl
  have hdash : ("-" : String).data = ['-'] := rfl
  simp only [String.data_append, hpeer, hdash, List.cons_append, List.nil_append,
    List.append_assoc, List.cons.injEq, true_and] at hd
  exact sep_inj x.data y.data _ _ hx hy hd

/-- Claim the two ends of one peering cable always have distinct names
(suffix 0 versus suffix 1). -/
theorem peer01_ne (v1 v2 : String) : peer0_name v1 v2 ≠ peer1_name v1 v2 := by
  intro h
  have hd := congrArg String.data h
  have hpeer : ("peer-" : String).data = ['p', 'e', 'e', 'r', '-'] := rfl
  have hdash : ("-" : String).data = ['-'] := rfl
  have h0 : ("-0" : String).data = ['-', '0'] := rfl
  have h1 : ("-1" : String).data = ['-', '1'] := rfl
  simp only [peer0_name, peer1_name, String.data_append, hpeer, hdash, h0, h1,
    List.cons_append, List.nil_append, List.append_assoc, List.cons.injEq, true_and] at hd
  simp at hd

/-- Claim peer_vpcs creates its fresh cable pair: after the operation both
new endpoints are present, attached to the respective switches and up (the
two endpoint names must differ, which peer01_ne guarantees). -/
theorem peer_vpcs_new_links (st : HostState) (v1 v2 : String)
    (h01 : peer0_name v1 v2 ≠ peer1_name v1 v2) :
    (⟨peer0_name v1 v2, some (peer1_name v1 v2), some (v1 ++ "-br"), true, none⟩ : Link)
        ∈ (peer_vpcs st v1 v2).state.links
    ∧ (⟨peer1_name v1 v2, some (peer0_name v1 v2), some (v2 ++ "-br"), true, none⟩ : Link)
        ∈ (peer_vpcs st v1 v2).state.links := by
  constructor <;>
    simp [peer_vpcs, cleanup_veth, OpOut.run, OpOut.runNoCheck, OpOut.log, OpOut.init,
      applyCmd, List.map_append, h01, Ne.symm h01]

/-- Claim any pre-existing link not named like (and not peered to) either
end of the new cable survives peer_vpcs untouched. -/
theorem peer_vpcs_mem_links (st : HostState) (v1 v2 : String) (l : Link)
    (hl : l ∈ st.links)
    (h1 : l.name ≠ peer0_name v1 v2) (h2 : l.peer ≠ some (peer0_name v1 v2))
    (h3 : l.name ≠ peer1_name v1 v2) :
    l ∈ (peer_vpcs st v1 v2).state.links := by
  have hb1 : (l.name == peer0_name v1 v2) = false := beq_eq_false_iff_ne.mpr h1
  have hb2 : (l.peer == some (peer0_name v1 v2)) = false := beq_eq_false_iff_ne.mpr h2
  have hb3 : (l.name == peer1_name v1 v2) = false := beq_eq_false_iff_ne.mpr h3
  have hmem0 : l ∈ st.links.filter
      (fun l => !(l.name == peer0_name v1 v2 || l.peer == some (peer0_name v1 v2))) := by
    rw [List.mem_filter]
    exact ⟨hl, by simp [hb1, hb2]⟩
  simp only [peer_vpcs, cleanup_veth, OpOut.run, OpOut.runNoCheck, OpOut.log, OpOut.init,
    applyCmd, List.map_append]
  apply List.mem_append_left
  refine List.mem_map.mpr ⟨l, ?_, by simp [hb3]⟩
  refine List.mem_map.mpr ⟨l, ?_, by simp [hb1]⟩
  refine List.mem_map.mpr ⟨l, ?_, by simp [hb3]⟩
  refine List.mem_map.mpr ⟨l, hmem0, by simp [hb1]⟩

/-- Claim C6: peer-networks first deletes any stale end-A cable (one
tolerated command), then creates a fresh cable pair, attaches end A to the
first switch and end B to the second, and activates both ends — the exact
command sequence is the trace below.  The endpoint identifiers are
order-dependent (for distinct dash-free names the end-A identifiers of the
two argument orders differ), so running the operation again with swapped
arguments leaves the first cable pair in place and adds a structurally
equivalent, differently-named second pair: after both calls all four
endpoints coexist, each attached to its switch and up. -/
theorem C6_peer_vpcs (st : HostState) (x y : String)
    (hx : ('-' : Char) ∉ x.data) (hy : ('-' : Char) ∉ y.data) (hne : x ≠ y) :
    (peer_vpcs st x y).trace
      = [(Cmd.linkDel (peer0_name x y), false),
         (Cmd.linkAddVeth (peer0_name x y) (peer1_name x y), true),
         (Cmd.linkSetMaster (peer0_name x y) (x ++ "-br"), true),
         (Cmd.linkSetMaster (peer1_name x y) (y ++ "-br"), true),
         (Cmd.linkSetUp (peer0_name x y), true),
         (Cmd.linkSetUp (peer1_name x y), true)]
    ∧ peer0_name x y ≠ peer0_name y x
    ∧ (⟨peer0_name x y, some (peer1_name x y), some (x ++ "-br"), true, none⟩ : Link)
        ∈ (peer_vpcs (peer_vpcs st x y).state y x).state.links
    ∧ (⟨peer1_name x y, some (peer0_name x y), some (y ++ "-br"), true, none⟩ : Link)
        ∈ (peer_vpcs (peer_vpcs st x y).state y x).state.links
    ∧ (⟨peer0_name y x, some (peer1_name y x), some (y ++ "-br"), true, none⟩ : Link)
        ∈ (peer_vpcs (peer_vpcs st x y).state y x).state.links
    ∧ (⟨peer1_name y x, some (peer0_name y x), some (x ++ "-br"), true, none⟩ : Link)
        ∈ (peer_vpcs (peer_vpcs st x y).state y x).state.links := by
  have n1 : peer0_name x y ≠ peer0_name y x := dashed_pair_ne x y "-0" "-0" hx hy hne
  have n2 : peer1_name x y ≠ peer0_name y x := dashed_pair_ne x y "-1" "-0" hx hy hne
  have n3 : peer0_name x y ≠ peer1_name y x := dashed_pair_ne x y "-0" "-1" hx hy hne
  have n4 : peer1_name x y ≠ peer1_name y x := dashed_pair_ne x y "-1" "-1" hx hy hne
  have hA := (peer_vpcs_new_links st x y (peer01_ne x y)).1
  have hB := (peer_vpcs_new_links st x y (peer01_ne x y)).2
  refine ⟨?_, n1, ?_, ?_, ?_, ?_⟩
  · simp [peer_vpcs, cleanup_veth, OpOut.run, OpOut.runNoCheck, OpOut.log, OpOut.init]
  · exact peer_vpcs_mem_links _ y x _ hA n1 (by simpa using n2) n3
  · exact peer_vpcs_mem_links _ y x _ hB n2 (by simpa using n1) n4
  · exact (peer_vpcs_new_links _ y x (peer01_ne y x)).1
  · exact (peer_vpcs_new_links _ y x (peer01_ne y x)).2

/-- Claim C6 witness: peering networks "a" and "b" and then peering "b" and
"a" from the empty host state. -/
theorem C6_witness :
    (('-' : Char) ∉ ("a" : String).data)
    ∧ (peer_vpcs initState "a" "b").trace
      = [(Cmd.linkDel (peer0_name "a" "b"), false),
         (Cmd.linkAddVeth (peer0_name "a" "b") (peer1_name "a" "b"), true),
         (Cmd.linkSetMaster (peer0_name "a" "b") ("a" ++ "-br"), true),
         (Cmd.linkSetMaster (peer1_name "a" "b") ("b" ++ "-br"), true),
         (Cmd.linkSetUp (peer0_name "a" "b"), true),
         (Cmd.linkSetUp (peer1_name "a" "b"), true)]
    ∧ peer0_name "a" "b" ≠ peer0_name "b" "a"
    ∧ (⟨peer0_name "a" "b", some (peer1_name "a" "b"), some ("a" ++ "-br"), true, none⟩ : Link)
        ∈ (peer_vpcs (peer_vpcs initState "a" "b").state "b" "a").state.links := by
  have h := C6_peer_vpcs initState "a" "b" (by decide) (by decide) (by decide)
  exact ⟨by decide, h.1, h.2.1, h.2.2.1⟩
